import Mathlib

/-!
Shallow embedding of the InteractiveQuizSystem session core
(src/models/player.py, src/models/quiz.py, src/models/choice_question.py,
src/models/game_session.py and the four state classes under src/state/),
together with theorems settling the specification claims about it.

Python machine integers are modelled as `Int`; Python `dict` as an
association list with last-writer-wins insertion; the answered `set` as a
duplicate-free list guarded by a membership test; fallible constructors as
`Except String`.  Side-effect order inside `GameSession.transition_to`
(src/models/game_session.py lines 145-157) is made observable through an
explicit event trace.
-/

/-- `Player` (src/models/player.py): connection identity, nickname, score.
Timestamps carry no logic and are omitted. -/
structure Player where
  connection_id : String
  nickname : String
  score : Int
  deriving Repr, DecidableEq

/-- The `score` property setter (src/models/player.py lines 52-56):
rejects a negative value with `ValueError`, otherwise stores it. -/
def Player.set_score (p : Player) (value : Int) : Except String Player :=
  if value < 0 then Except.error "Score cannot be negative."
  else Except.ok { p with score := value }

/-- `Player.add_score` (src/models/player.py lines 58-60):
`self._score += points`, a direct write to the private field with no
validation. -/
def Player.add_score (p : Player) (points : Int) : Player :=
  { p with score := p.score + points }

/-- `ChoiceQuestion` field data (src/models/choice_question.py), including
the `BaseQuestion` fields `text` and `time_limit_seconds`. -/
structure ChoiceQuestion where
  text : String
  time_limit_seconds : Int
  options : List String
  correct_index : Int
  deriving Repr, DecidableEq

/-- `ChoiceQuestion.__init__` (src/models/choice_question.py lines 17-37):
raises when `options` is empty, then when `correct_index` is outside
`[0, len(options))`; otherwise stores the options list and the index. -/
def mkChoiceQuestion (text : String) (options : List String)
    (correct_index : Int) (time_limit_seconds : Int) :
    Except String ChoiceQuestion :=
  if options = [] then
    Except.error "ChoiceQuestion must have at least one option."
  else if correct_index < 0 ∨ (options.length : Int) ≤ correct_index then
    Except.error "correct_index out of range"
  else
    Except.ok { text := text, time_limit_seconds := time_limit_seconds,
                options := options, correct_index := correct_index }

/-- `TrueFalseQuestion` field data (src/models/true_false_question.py). -/
structure TrueFalseQuestion where
  text : String
  time_limit_seconds : Int
  correct_answer : Bool
  deriving Repr, DecidableEq

/-- `BaseQuestion` (src/models/base_question.py): closed over its two
concrete variants. -/
inductive BaseQuestion where
  | choice : ChoiceQuestion → BaseQuestion
  | trueFalse : TrueFalseQuestion → BaseQuestion
  deriving Repr, DecidableEq

/-- `Quiz` (src/models/quiz.py): title, description, ordered question
list.  The non-emptiness check lives in `mkQuiz` below, mirroring
`Quiz.__init__`. -/
structure Quiz where
  title : String
  description : String
  questions : List BaseQuestion
  deriving Repr, DecidableEq

/-- `Quiz.__init__` (src/models/quiz.py lines 19-37): raises when the
question list is empty. -/
def mkQuiz (title : String) (questions : List BaseQuestion)
    (description : String) : Except String Quiz :=
  if questions = [] then
    Except.error "Quiz must have at least one question."
  else
    Except.ok { title := title, description := description,
                questions := questions }

/-- `Quiz.question_count` (src/models/quiz.py lines 73-75). -/
def Quiz.question_count (q : Quiz) : Nat :=
  q.questions.length

/-- `Quiz.get_question_at` (src/models/quiz.py lines 77-81):
`if 0 <= index < len(self._questions)` return the element, else `None`. -/
def Quiz.get_question_at (q : Quiz) (index : Int) : Option BaseQuestion :=
  if 0 ≤ index ∧ index < (q.questions.length : Int) then
    q.questions[index.toNat]?
  else
    none

/-- The four concrete `GameState` variants (src/state/). -/
inductive GameState where
  | lobby
  | question
  | leaderboard
  | finished
  deriving Repr, DecidableEq

/-- `state_name` of each variant (src/state/ *.py). -/
def GameState.state_name : GameState → String
  | GameState.lobby => "lobby"
  | GameState.question => "question"
  | GameState.leaderboard => "leaderboard"
  | GameState.finished => "finished"

/-- `GameSession` data (src/models/game_session.py lines 41-54): PIN, quiz,
players keyed by connection id, zero-based cursor, current state, whether a
broadcast callback is registered, and the answered-set for the current
question. -/
structure GameSession where
  pin : String
  quiz : Quiz
  players : List (String × Player)
  current_question_index : Int
  state : Option GameState
  has_broadcast_callback : Bool
  current_question_answered : List String
  deriving Repr, DecidableEq

/-- `GameSession.__init__` (src/models/game_session.py lines 25-54):
empty player map, cursor 0, state defaulting to `LobbyState`, no broadcast
callback, empty answered-set. -/
def GameSession.mkSession (pin : String) (quiz : Quiz)
    (initial_state : Option GameState) : GameSession :=
  { pin := pin, quiz := quiz, players := [], current_question_index := 0,
    state := some (initial_state.getD GameState.lobby),
    has_broadcast_callback := false, current_question_answered := [] }

/-- Python `dict` assignment `players[cid] = player`: update in place when
the key exists, append otherwise. -/
def playersInsert : List (String × Player) → Player → List (String × Player)
  | [], p => [(p.connection_id, p)]
  | (k, v) :: rest, p =>
      if k = p.connection_id then (k, p) :: rest
      else (k, v) :: playersInsert rest p

/-- Python `dict.get(cid)`. -/
def playersLookup : List (String × Player) → String → Option Player
  | [], _ => none
  | (k, v) :: rest, cid => if k = cid then some v else playersLookup rest cid

/-- Python `dict.pop(cid, None)`: drop the entry for the key. -/
def playersErase : List (String × Player) → String → List (String × Player)
  | [], _ => []
  | (k, v) :: rest, cid =>
      if k = cid then playersErase rest cid
      else (k, v) :: playersErase rest cid

/-- `GameSession.add_player` (src/models/game_session.py lines 97-99). -/
def GameSession.add_player (s : GameSession) (p : Player) : GameSession :=
  { s with players := playersInsert s.players p }

/-- `GameSession.remove_player` (src/models/game_session.py lines 101-103):
returns the removed player (or `none`) and drops only the player-map
entry. -/
def GameSession.remove_player (s : GameSession) (connection_id : String) :
    Option Player × GameSession :=
  (playersLookup s.players connection_id,
   { s with players := playersErase s.players connection_id })

/-- `GameSession.get_player` (src/models/game_session.py lines 105-107). -/
def GameSession.get_player (s : GameSession) (connection_id : String) :
    Option Player :=
  playersLookup s.players connection_id

/-- `GameSession.clear_current_question_answers`
(src/models/game_session.py lines 113-115). -/
def GameSession.clear_current_question_answers (s : GameSession) :
    GameSession :=
  { s with current_question_answered := [] }

/-- `GameSession.has_answered_current_question`
(src/models/game_session.py lines 117-119). -/
def GameSession.has_answered_current_question (s : GameSession)
    (connection_id : String) : Bool :=
  decide (connection_id ∈ s.current_question_answered)

/-- `GameSession.record_answer` (src/models/game_session.py lines 121-126):
`False` on a duplicate, otherwise add to the answered-set and return
`True`.  No check of the session state or of player membership. -/
def GameSession.record_answer (s : GameSession) (connection_id : String) :
    Bool × GameSession :=
  if connection_id ∈ s.current_question_answered then (false, s)
  else
    (true,
     { s with current_question_answered :=
         connection_id :: s.current_question_answered })

/-- `GameSession.get_current_question`
(src/models/game_session.py lines 128-130). -/
def GameSession.get_current_question (s : GameSession) :
    Option BaseQuestion :=
  s.quiz.get_question_at s.current_question_index

/-- `GameSession.has_next_question`
(src/models/game_session.py lines 132-134). -/
def GameSession.has_next_question (s : GameSession) : Bool :=
  decide (s.current_question_index + 1 < (s.quiz.question_count : Int))

/-- `GameSession.advance_to_next_question`
(src/models/game_session.py lines 136-143). -/
def GameSession.advance_to_next_question (s : GameSession) :
    Bool × GameSession :=
  if s.has_next_question then
    (true, { s with current_question_index := s.current_question_index + 1 })
  else (false, s)

/-- `can_start_question` per variant: `True` only in `LobbyState`
(src/state/lobby_state.py lines 18-19; default `False` in
src/state/game_state.py lines 39-41). -/
def GameState.can_start_question : GameState → GameSession → Bool
  | GameState.lobby, _ => true
  | _, _ => false

/-- `can_go_next` per variant: `True` in `QuestionState` and
`LeaderboardState`, `False` in `LobbyState` (default) and explicitly in
`FinishedState` (src/state/finished_state.py lines 23-24). -/
def GameState.can_go_next : GameState → GameSession → Bool
  | GameState.question, _ => true
  | GameState.leaderboard, _ => true
  | _, _ => false

/-- `can_show_leaderboard` per variant: `True` only in `QuestionState`
(src/state/question_state.py lines 28-29). -/
def GameState.can_show_leaderboard : GameState → GameSession → Bool
  | GameState.question, _ => true
  | _, _ => false

/-- `on_enter` per variant: `QuestionState.on_enter` clears the
answered-set (src/state/question_state.py lines 24-26); every other
variant inherits the no-op default. -/
def GameState.on_enter (st : GameState) (s : GameSession) : GameSession :=
  match st with
  | GameState.question => s.clear_current_question_answers
  | _ => s

/-- `on_leave`: no variant overrides the no-op default
(src/state/game_state.py lines 32-37). -/
def GameState.on_leave (_ : GameState) (s : GameSession) : GameSession :=
  s

/-- `get_next_state` per variant, returning the successor (if any) and the
session, since `LeaderboardState.get_next_state` advances the cursor
(src/state/lobby_state.py lines 21-25, src/state/question_state.py
lines 34-40, src/state/leaderboard_state.py lines 27-33,
src/state/finished_state.py lines 26-27). -/
def GameState.get_next_state : GameState → GameSession →
    Option GameState × GameSession
  | GameState.lobby, s =>
      if s.quiz.question_count = 0 then (none, s)
      else (some GameState.question, s)
  | GameState.question, s => (some GameState.leaderboard, s)
  | GameState.leaderboard, s =>
      if s.has_next_question then
        (some GameState.question, (s.advance_to_next_question).2)
      else (some GameState.finished, s)
  | GameState.finished, s => (none, s)

/-- Observable side effects of `GameSession.transition_to`, in the order
the Python body performs them. -/
inductive SessionEvent where
  | on_leave (st : GameState)
  | set_state (st : GameState)
  | on_enter (st : GameState)
  | broadcast
  deriving Repr, DecidableEq

/-- `GameSession.transition_to` (src/models/game_session.py lines 145-157):
`on_leave` on the current state (when present), assignment of the new
state, `on_enter` on the new state, then the broadcast callback when one
is registered.  The event list records that order. -/
def GameSession.transition_to (s : GameSession) (new_state : GameState) :
    GameSession × List SessionEvent :=
  let step1 : GameSession × List SessionEvent :=
    match s.state with
    | some st => (st.on_leave s, [SessionEvent.on_leave st])
    | none => (s, [])
  let s2 : GameSession := { step1.1 with state := some new_state }
  let s3 : GameSession := new_state.on_enter s2
  let tailEvents : List SessionEvent :=
    if s.has_broadcast_callback then [SessionEvent.broadcast] else []
  (s3, step1.2 ++ SessionEvent.set_state new_state ::
        SessionEvent.on_enter new_state :: tailEvents)

/-- `GameSession.trigger_next` (src/models/game_session.py lines 159-171). -/
def GameSession.trigger_next (s : GameSession) :
    Bool × GameSession × List SessionEvent :=
  match s.state with
  | none => (false, s, [])
  | some st =>
      if st.can_go_next s then
        match st.get_next_state s with
        | (none, s1) => (false, s1, [])
        | (some ns, s1) =>
            let r := s1.transition_to ns
            (true, r.1, r.2)
      else (false, s, [])

/-- `GameSession.trigger_start_question`
(src/models/game_session.py lines 173-184). -/
def GameSession.trigger_start_question (s : GameSession) :
    Bool × GameSession × List SessionEvent :=
  match s.state with
  | none => (false, s, [])
  | some st =>
      if st.can_start_question s then
        match st.get_next_state s with
        | (none, s1) => (false, s1, [])
        | (some ns, s1) =>
            let r := s1.transition_to ns
            (true, r.1, r.2)
      else (false, s, [])

/-- A host command: one of the two public trigger entry points. -/
inductive Trigger where
  | startQuestion
  | next
  deriving Repr, DecidableEq

/-- Dispatch one host command. -/
def GameSession.applyTrigger (s : GameSession) (t : Trigger) :
    Bool × GameSession × List SessionEvent :=
  match t with
  | Trigger.startQuestion => s.trigger_start_question
  | Trigger.next => s.trigger_next

/-- Run a sequence of host commands, collecting the state entered by each
successful transition, in order. -/
def GameSession.runTriggers : GameSession → List Trigger →
    GameSession × List GameState
  | s, [] => (s, [])
  | s, t :: ts =>
      let r := s.applyTrigger t
      let rest := r.2.1.runTriggers ts
      (rest.1, (if r.1 then r.2.1.state.toList else []) ++ rest.2)

/-! ### Sample data used by witnesses and counterexamples -/

/-- A concrete two-option choice question. -/
def sampleChoice (s : String) : BaseQuestion :=
  BaseQuestion.choice
    { text := s, time_limit_seconds := 30, options := ["a", "b"],
      correct_index := 0 }

/-- A concrete one-question quiz. -/
def sampleQuiz1 : Quiz :=
  { title := "Sample1", description := "", questions := [sampleChoice "q1"] }

/-- A concrete three-question quiz. -/
def sampleQuiz3 : Quiz :=
  { title := "Sample3", description := "",
    questions := [sampleChoice "q1", sampleChoice "q2", sampleChoice "q3"] }

/-! ### The lifecycle language and the phase invariant -/

/-- `j` completed leaderboard-question rounds. -/
def roundsList : Nat → List GameState
  | 0 => []
  | j + 1 => roundsList j ++ [GameState.leaderboard, GameState.question]

/-- The full lifecycle word for a quiz whose cursor tops out at `k`:
`lobby, question, (leaderboard, question)^k, leaderboard, finished`. -/
def lifecycleWord (k : Nat) : List GameState :=
  GameState.lobby :: GameState.question ::
    (roundsList k ++ [GameState.leaderboard, GameState.finished])

/-- Invariant tying a session to the list of states entered so far by
successful transitions (`n` is the quiz's question count). -/
inductive Phase (n : Nat) : GameSession → List GameState → Prop where
  | lobby (s : GameSession) (h : s.state = some GameState.lobby)
      (hc : s.current_question_index = 0) : Phase n s []
  | question (s : GameSession) (i : Nat)
      (h : s.state = some GameState.question)
      (hc : s.current_question_index = (i : Int)) (hi : i < n) :
      Phase n s (GameState.question :: roundsList i)
  | leaderboard (s : GameSession) (i : Nat)
      (h : s.state = some GameState.leaderboard)
      (hc : s.current_question_index = (i : Int)) (hi : i < n) :
      Phase n s (GameState.question ::
        (roundsList i ++ [GameState.leaderboard]))
  | finished (s : GameSession) (h : s.state = some GameState.finished)
      (hc : s.current_question_index = ((n - 1 : Nat) : Int)) :
      Phase n s (GameState.question :: (roundsList (n - 1) ++
        [GameState.leaderboard, GameState.finished]))

/-! ### One-step equations for the trigger entry points -/

lemma transition_to_eq (s : GameSession) (st ns : GameState)
    (h : s.state = some st) :
    s.transition_to ns =
      (ns.on_enter { s with state := some ns },
       SessionEvent.on_leave st :: SessionEvent.set_state ns ::
         SessionEvent.on_enter ns ::
         (if s.has_broadcast_callback then [SessionEvent.broadcast]
          else [])) := by
  simp [GameSession.transition_to, h, GameState.on_leave]

lemma trigger_start_question_lobby (s : GameSession)
    (h : s.state = some GameState.lobby) (hq : s.quiz.question_count ≠ 0) :
    s.trigger_start_question =
      (true,
       { s with state := some GameState.question,
                current_question_answered := [] },
       SessionEvent.on_leave GameState.lobby ::
         SessionEvent.set_state GameState.question ::
         SessionEvent.on_enter GameState.question ::
         (if s.has_broadcast_callback then [SessionEvent.broadcast]
          else [])) := by
  simp [GameSession.trigger_start_question, h, GameState.can_start_question,
        GameState.get_next_state, hq, transition_to_eq _ _ _ h,
        GameState.on_enter, GameSession.clear_current_question_answers]

lemma trigger_start_question_fail (s : GameSession) (st : GameState)
    (h : s.state = some st) (hc : st.can_start_question s = false) :
    s.trigger_start_question = (false, s, []) := by
  simp [GameSession.trigger_start_question, h, hc]

lemma trigger_next_fail (s : GameSession) (st : GameState)
    (h : s.state = some st) (hc : st.can_go_next s = false) :
    s.trigger_next = (false, s, []) := by
  simp [GameSession.trigger_next, h, hc]

lemma trigger_next_question (s : GameSession)
    (h : s.state = some GameState.question) :
    s.trigger_next =
      (true, { s with state := some GameState.leaderboard },
       SessionEvent.on_leave GameState.question ::
         SessionEvent.set_state GameState.leaderboard ::
         SessionEvent.on_enter GameState.leaderboard ::
         (if s.has_broadcast_callback then [SessionEvent.broadcast]
          else [])) := by
  simp [GameSession.trigger_next, h, GameState.can_go_next,
        GameState.get_next_state, transition_to_eq _ _ _ h,
        GameState.on_enter]

lemma trigger_next_leaderboard_advance (s : GameSession)
    (h : s.state = some GameState.leaderboard)
    (hb : s.has_next_question = true) :
    s.trigger_next =
      (true,
       { s with current_question_index := s.current_question_index + 1,
                state := some GameState.question,
                current_question_answered := [] },
       SessionEvent.on_leave GameState.leaderboard ::
         SessionEvent.set_state GameState.question ::
         SessionEvent.on_enter GameState.question ::
         (if s.has_broadcast_callback then [SessionEvent.broadcast]
          else [])) := by
  simp [GameSession.trigger_next, h, GameState.can_go_next,
        GameState.get_next_state, hb, GameSession.advance_to_next_question,
        GameSession.transition_to, GameState.on_leave, GameState.on_enter,
        GameSession.clear_current_question_answers]

lemma trigger_next_leaderboard_finish (s : GameSession)
    (h : s.state = some GameState.leaderboard)
    (hb : s.has_next_question = false) :
    s.trigger_next =
      (true, { s with state := some GameState.finished },
       SessionEvent.on_leave GameState.leaderboard ::
         SessionEvent.set_state GameState.finished ::
         SessionEvent.on_enter GameState.finished ::
         (if s.has_broadcast_callback then [SessionEvent.broadcast]
          else [])) := by
  simp [GameSession.trigger_next, h, GameState.can_go_next,
        GameState.get_next_state, hb, transition_to_eq _ _ _ h,
        GameState.on_enter]

lemma trigger_none_fail (s : GameSession) (st : GameState)
    (h : s.state = some st) (hn : (st.get_next_state s).1 = none) :
    s.trigger_start_question = (false, s, []) ∧ s.trigger_next = (false, s, []) := by
  cases st with
  | lobby =>
      have hq0 : s.quiz.question_count = 0 := by
        by_contra hq0
        simp [GameState.get_next_state, hq0] at hn
      refine ⟨?_, trigger_next_fail s _ h rfl⟩
      simp [GameSession.trigger_start_question, h, GameState.can_start_question,
            GameState.get_next_state, hq0]
  | question => simp [GameState.get_next_state] at hn
  | leaderboard =>
      rw [GameState.get_next_state] at hn
      split at hn <;> simp_all
  | finished =>
      exact ⟨trigger_start_question_fail s _ h rfl, trigger_next_fail s _ h rfl⟩

lemma applyTrigger_phase (n : Nat) (hn : 0 < n) (s : GameSession)
    (path : List GameState) (hq : s.quiz.question_count = n)
    (hp : Phase n s path) (t : Trigger) :
    (s.applyTrigger t).2.1.quiz = s.quiz ∧
    Phase n (s.applyTrigger t).2.1
      (path ++ (if (s.applyTrigger t).1 = true
                then (s.applyTrigger t).2.1.state.toList else [])) := by
  cases hp with
  | lobby h hc =>
      cases t with
      | startQuestion =>
          have hq0 : s.quiz.question_count ≠ 0 := by omega
          have he := trigger_start_question_lobby s h hq0
          simp only [GameSession.applyTrigger]
          rw [he]
          refine ⟨rfl, ?_⟩
          simp only [eq_self_iff_true, if_true, Option.toList, List.nil_append]
          exact Phase.question _ 0 rfl hc hn
      | next =>
          have he := trigger_next_fail s _ h rfl
          simp only [GameSession.applyTrigger]
          rw [he]
          refine ⟨rfl, ?_⟩
          simpa using Phase.lobby s h hc
  | question i h hc hi =>
      cases t with
      | startQuestion =>
          have he := trigger_start_question_fail s _ h rfl
          simp only [GameSession.applyTrigger]
          rw [he]
          refine ⟨rfl, ?_⟩
          simpa using Phase.question s i h hc hi
      | next =>
          have he := trigger_next_question s h
          simp only [GameSession.applyTrigger]
          rw [he]
          refine ⟨rfl, ?_⟩
          simp only [eq_self_iff_true, if_true, Option.toList, List.cons_append,
                     List.append_assoc, List.singleton_append, List.nil_append]
          exact Phase.leaderboard _ i rfl hc hi
  | leaderboard i h hc hi =>
      cases t with
      | startQuestion =>
          have he := trigger_start_question_fail s _ h rfl
          simp only [GameSession.applyTrigger]
          rw [he]
          refine ⟨rfl, ?_⟩
          simpa using Phase.leaderboard s i h hc hi
      | next =>
          by_cases hni : i + 1 < n
          · have hb : s.has_next_question = true := by
              simp only [GameSession.has_next_question, hc, hq, decide_eq_true_eq]
              omega
            have he := trigger_next_leaderboard_advance s h hb
            simp only [GameSession.applyTrigger]
            rw [he]
            refine ⟨rfl, ?_⟩
            simp only [eq_self_iff_true, if_true, Option.toList, List.cons_append,
                       List.append_assoc, List.singleton_append, List.nil_append]
            have hc2 : s.current_question_index + 1 = ((i + 1 : Nat) : Int) := by
              rw [hc]
              push_cast
              ring
            exact Phase.question _ (i + 1) rfl hc2 hni
          · have hb : s.has_next_question = false := by
              simp only [GameSession.has_next_question, hc, hq,
                         decide_eq_false_iff_not]
              omega
            have he := trigger_next_leaderboard_finish s h hb
            simp only [GameSession.applyTrigger]
            rw [he]
            refine ⟨rfl, ?_⟩
            simp only [eq_self_iff_true, if_true, Option.toList, List.cons_append,
                       List.append_assoc, List.singleton_append, List.nil_append]
            have hieq : i = n - 1 := by omega
            subst hieq
            exact Phase.finished { s with state := some GameState.finished } rfl hc
  | finished h hc =>
      have he1 := trigger_start_question_fail s _ h rfl
      have he2 := trigger_next_fail s _ h rfl
      cases t with
      | startQuestion =>
          simp only [GameSession.applyTrigger]
          rw [he1]
          refine ⟨rfl, ?_⟩
          simpa using Phase.finished s h hc
      | next =>
          simp only [GameSession.applyTrigger]
          rw [he2]
          refine ⟨rfl, ?_⟩
          simpa using Phase.finished s h hc

lemma runTriggers_phase (n : Nat) (hn : 0 < n) :
    ∀ (ts : List Trigger) (s : GameSession) (path : List GameState),
      s.quiz.question_count = n → Phase n s path →
      (s.runTriggers ts).1.quiz = s.quiz ∧
      Phase n (s.runTriggers ts).1 (path ++ (s.runTriggers ts).2) := by
  intro ts
  induction ts with
  | nil =>
      intro s path hq hp
      simpa [GameSession.runTriggers] using hp
  | cons t ts ih =>
      intro s path hq hp
      obtain ⟨hq1, hp1⟩ := applyTrigger_phase n hn s path hq hp t
      have hq2 : (s.applyTrigger t).2.1.quiz.question_count = n := by
        rw [hq1, hq]
      obtain ⟨hq3, hp3⟩ := ih (s.applyTrigger t).2.1 _ hq2 hp1
      refine ⟨by rw [GameSession.runTriggers]; rw [hq3, hq1], ?_⟩
      rw [GameSession.runTriggers]
      simpa [List.append_assoc] using hp3

lemma roundsList_append_exists (i : Nat) :
    ∀ j, i ≤ j → ∃ u, roundsList i ++ u = roundsList j := by
  intro j
  induction j with
  | zero =>
      intro hij
      have : i = 0 := Nat.le_zero.mp hij
      subst this
      exact ⟨[], by simp⟩
  | succ j ih =>
      intro hij
      rcases Nat.lt_or_ge i (j + 1) with hlt | hge
      · obtain ⟨u, hu⟩ := ih (Nat.lt_succ_iff.mp hlt)
        refine ⟨u ++ [GameState.leaderboard, GameState.question], ?_⟩
        rw [roundsList, ← hu, List.append_assoc]
      · have : i = j + 1 := Nat.le_antisymm hij hge
        subst this
        exact ⟨[], by simp⟩

lemma phase_path_isPre (n : Nat) (hn : 0 < n) (s : GameSession)
    (path : List GameState) (hp : Phase n s path) :
    (GameState.lobby :: path) <+: lifecycleWord (n - 1) := by
  cases hp with
  | lobby h hc =>
      exact ⟨GameState.question :: (roundsList (n - 1) ++
        [GameState.leaderboard, GameState.finished]), rfl⟩
  | question i h hc hi =>
      have hile : i ≤ n - 1 := by omega
      obtain ⟨u, hu⟩ := roundsList_append_exists i (n - 1) hile
      refine ⟨u ++ [GameState.leaderboard, GameState.finished], ?_⟩
      simp only [lifecycleWord, List.cons_append, List.append_assoc, hu]
      rw [← List.append_assoc, hu]
  | leaderboard i h hc hi =>
      rcases Nat.lt_or_ge i (n - 1) with hlt | hge
      · obtain ⟨u, hu⟩ := roundsList_append_exists (i + 1) (n - 1) hlt
        refine ⟨GameState.question :: u ++ [GameState.leaderboard,
          GameState.finished], ?_⟩
        simp only [lifecycleWord, List.cons_append, List.append_assoc]
        rw [← hu, roundsList]
        simp
      · have : i = n - 1 := by omega
        subst this
        exact ⟨[GameState.finished], by simp [lifecycleWord]⟩
  | finished h hc =>
      exact ⟨[], by simp [lifecycleWord]⟩

lemma isPre_map {α β : Type} (f : α → β) {l1 l2 : List α}
    (h : l1 <+: l2) : l1.map f <+: l2.map f := by
  obtain ⟨t, ht⟩ := h
  exact ⟨t.map f, by rw [← List.map_append, ht]⟩

/-- C1: for every session built on a non-empty quiz, the sequence of state
names observed over any sequence of trigger calls (starting at lobby and
recording each successful transition's target) is a prefix of
`lobby, question, (leaderboard, question)*, leaderboard, finished`: no
state is skipped, Lobby is never re-entered, and no transition leaves
Finished. -/
theorem session_state_sequence_is_lifecycle (quiz : Quiz) (pin : String)
    (ts : List Trigger) (h : quiz.questions ≠ []) :
    ((GameState.lobby ::
        ((GameSession.mkSession pin quiz none).runTriggers ts).2).map
      GameState.state_name) <+:
      ((lifecycleWord (quiz.question_count - 1)).map GameState.state_name) := by
  have hn : 0 < quiz.question_count := by
    cases hq : quiz.questions with
    | nil => exact absurd hq h
    | cons a l => simp [Quiz.question_count, hq]
  have hp0 : Phase quiz.question_count
      (GameSession.mkSession pin quiz none) [] := Phase.lobby _ rfl rfl
  obtain ⟨-, hp⟩ := runTriggers_phase quiz.question_count hn ts _ [] rfl hp0
  rw [List.nil_append] at hp
  exact isPre_map _ (phase_path_isPre _ hn _ _ hp)

/-- Witness for C1: the three-question sample quiz run through a full
lifecycle. -/
theorem session_state_sequence_is_lifecycle_witness :
    sampleQuiz3.questions ≠ [] ∧
    ((GameState.lobby ::
        ((GameSession.mkSession "PIN" sampleQuiz3 none).runTriggers
          [Trigger.startQuestion, Trigger.next, Trigger.next, Trigger.next,
           Trigger.next, Trigger.next]).2).map GameState.state_name) <+:
      ((lifecycleWord (sampleQuiz3.question_count - 1)).map
        GameState.state_name) :=
  ⟨by decide,
   session_state_sequence_is_lifecycle sampleQuiz3 "PIN"
     [Trigger.startQuestion, Trigger.next, Trigger.next, Trigger.next,
      Trigger.next, Trigger.next] (by decide)⟩

/-- Which legality predicate each trigger entry point consults
(src/models/game_session.py lines 165 and 178). -/
def triggerLegal (t : Trigger) (st : GameState) (s : GameSession) : Bool :=
  match t with
  | Trigger.startQuestion => st.can_start_question s
  | Trigger.next => st.can_go_next s

/-- A concrete session that has a broadcast callback registered. -/
def sampleSessionHook : GameSession :=
  { pin := "P", quiz := sampleQuiz1, players := [],
    current_question_index := 0, state := some GameState.lobby,
    has_broadcast_callback := true, current_question_answered := [] }

/-- A concrete session resting in the finished state. -/
def sampleSessionFinished : GameSession :=
  { pin := "P", quiz := sampleQuiz1, players := [],
    current_question_index := 0, state := some GameState.finished,
    has_broadcast_callback := false,
    current_question_answered := ["alice"] }

/-- C2: `record_answer` returns true and inserts the identity exactly when
it is not yet in the answered-set, and returns false leaving the session
unchanged on a duplicate; two consecutive calls for one identity return
true then false, and after the next transition into the Question state
(whose `on_enter` clears the answered-set) the same identity returns true
again. -/
theorem record_answer_duplicate_guard (s s2 : GameSession) (cid : String)
    (h : cid ∉ s.current_question_answered)
    (h2 : cid ∈ s2.current_question_answered) :
    s.record_answer cid =
      (true, { s with current_question_answered :=
                 cid :: s.current_question_answered }) ∧
    s2.record_answer cid = (false, s2) ∧
    ((s.record_answer cid).2.record_answer cid) =
      (false, (s.record_answer cid).2) ∧
    (((s.record_answer cid).2.transition_to GameState.question).1.record_answer
        cid).1 = true := by
  refine ⟨by simp [GameSession.record_answer, h],
          by simp [GameSession.record_answer, h2],
          by simp [GameSession.record_answer, h], ?_⟩
  cases hs : s.state <;>
    simp [GameSession.record_answer, h, GameSession.transition_to, hs,
          GameState.on_enter, GameState.on_leave,
          GameSession.clear_current_question_answers]

/-- Witness for C2 at a fresh one-question session. -/
theorem record_answer_duplicate_guard_witness :
    ("alice" ∉ (GameSession.mkSession "P" sampleQuiz1
        none).current_question_answered) ∧
    ("alice" ∈ sampleSessionFinished.current_question_answered) ∧
    ((GameSession.mkSession "P" sampleQuiz1 none).record_answer "alice" =
      (true, { GameSession.mkSession "P" sampleQuiz1 none with
                 current_question_answered :=
                   "alice" :: (GameSession.mkSession "P" sampleQuiz1
                     none).current_question_answered }) ∧
    sampleSessionFinished.record_answer "alice" =
      (false, sampleSessionFinished) ∧
    (((GameSession.mkSession "P" sampleQuiz1 none).record_answer
        "alice").2.record_answer "alice") =
      (false, ((GameSession.mkSession "P" sampleQuiz1 none).record_answer
        "alice").2) ∧
    ((((GameSession.mkSession "P" sampleQuiz1 none).record_answer
        "alice").2.transition_to GameState.question).1.record_answer
        "alice").1 = true) :=
  ⟨by decide, by decide,
   record_answer_duplicate_guard (GameSession.mkSession "P" sampleQuiz1 none)
     sampleSessionFinished "alice" (by decide) (by decide)⟩

/-- C3: a transition performs, in order, `on_leave` on the outgoing state,
replacement of the current-state reference, `on_enter` on the incoming
state, then the broadcast hook; the hook fires exactly once per transition
when registered and a session without a hook transitions without error. -/
theorem transition_protocol_order (s : GameSession) (st ns : GameState)
    (h : s.state = some st) :
    (s.transition_to ns).2 =
      SessionEvent.on_leave st :: SessionEvent.set_state ns ::
        SessionEvent.on_enter ns ::
        (if s.has_broadcast_callback then [SessionEvent.broadcast]
         else []) ∧
    (s.transition_to ns).1.state = some ns ∧
    (s.transition_to ns).1 = ns.on_enter { s with state := some ns } ∧
    ((s.transition_to ns).2.count SessionEvent.broadcast =
      if s.has_broadcast_callback then 1 else 0) := by
  have he := transition_to_eq s st ns h
  refine ⟨by rw [he], ?_, by rw [he], ?_⟩
  · rw [he]
    cases ns <;>
      simp [GameState.on_enter, GameSession.clear_current_question_answers]
  · rw [he]
    cases hb : s.has_broadcast_callback <;> simp [List.count_cons]

/-- Witness for C3 at a lobby session with a registered hook. -/
theorem transition_protocol_order_witness :
    sampleSessionHook.state = some GameState.lobby ∧
    ((sampleSessionHook.transition_to GameState.question).2 =
      SessionEvent.on_leave GameState.lobby ::
        SessionEvent.set_state GameState.question ::
        SessionEvent.on_enter GameState.question ::
        (if sampleSessionHook.has_broadcast_callback then
          [SessionEvent.broadcast] else []) ∧
    (sampleSessionHook.transition_to GameState.question).1.state =
      some GameState.question ∧
    (sampleSessionHook.transition_to GameState.question).1 =
      GameState.question.on_enter
        { sampleSessionHook with state := some GameState.question } ∧
    ((sampleSessionHook.transition_to GameState.question).2.count
        SessionEvent.broadcast =
      if sampleSessionHook.has_broadcast_callback then 1 else 0)) :=
  ⟨rfl, transition_protocol_order sampleSessionHook GameState.lobby
    GameState.question rfl⟩

/-- C4: a trigger whose legality predicate is false, or whose current state
offers no successor, returns false and leaves the session completely
unchanged with no events (hence no hook call); in particular
`can_start_question` is false in the question, leaderboard and finished
states. -/
theorem trigger_rejected_leaves_session_unchanged (s : GameSession)
    (st : GameState) (t : Trigger) (h : s.state = some st)
    (hblock : triggerLegal t st s = false ∨ (st.get_next_state s).1 = none) :
    s.applyTrigger t = (false, s, []) ∧
    GameState.question.can_start_question s = false ∧
    GameState.leaderboard.can_start_question s = false ∧
    GameState.finished.can_start_question s = false := by
  refine ⟨?_, rfl, rfl, rfl⟩
  rcases hblock with hb | hb
  · cases t with
    | startQuestion =>
        simpa [GameSession.applyTrigger] using
          trigger_start_question_fail s st h hb
    | next =>
        simpa [GameSession.applyTrigger] using trigger_next_fail s st h hb
  · obtain ⟨h1, h2⟩ := trigger_none_fail s st h hb
    cases t with
    | startQuestion => simpa [GameSession.applyTrigger] using h1
    | next => simpa [GameSession.applyTrigger] using h2

/-- Witness for C4: start-question attempted in the finished state. -/
theorem trigger_rejected_leaves_session_unchanged_witness :
    (sampleSessionFinished.state = some GameState.finished) ∧
    (triggerLegal Trigger.startQuestion GameState.finished
        sampleSessionFinished = false ∨
      (GameState.finished.get_next_state sampleSessionFinished).1 = none) ∧
    (sampleSessionFinished.applyTrigger Trigger.startQuestion =
      (false, sampleSessionFinished, []) ∧
    GameState.question.can_start_question sampleSessionFinished = false ∧
    GameState.leaderboard.can_start_question sampleSessionFinished = false ∧
    GameState.finished.can_start_question sampleSessionFinished = false) :=
  ⟨rfl, Or.inl rfl,
   trigger_rejected_leaves_session_unchanged sampleSessionFinished
     GameState.finished Trigger.startQuestion rfl (Or.inl rfl)⟩

lemma phase_cursor_bound (n : Nat) (hn : 0 < n) (s : GameSession)
    (path : List GameState) (hp : Phase n s path) :
    0 ≤ s.current_question_index ∧
    s.current_question_index < (n : Int) := by
  cases hp <;> omega

lemma mkSession_run_cursor (q : Quiz) (pin : String) (ops : List Trigger)
    (hq0 : 0 < q.question_count) :
    0 ≤ ((GameSession.mkSession pin q none).runTriggers
        ops).1.current_question_index ∧
    ((GameSession.mkSession pin q none).runTriggers
        ops).1.current_question_index < (q.question_count : Int) := by
  have hp0 : Phase q.question_count (GameSession.mkSession pin q none) [] :=
    Phase.lobby _ rfl rfl
  obtain ⟨-, hp⟩ := runTriggers_phase q.question_count hq0 ops _ [] rfl hp0
  exact phase_cursor_bound q.question_count hq0 _ _ hp

/-- C5: `advance_to_next_question` increments the cursor and returns true
exactly when the incremented cursor is a valid question index, and is a
no-op returning false otherwise; Leaderboard's successor decision advances
the cursor and yields Question exactly when a next question exists and
yields Finished leaving the cursor alone otherwise; a one-question quiz
keeps cursor 0 through any trigger sequence, and the three-question sample
quiz visits cursors 0, 1, 2 in order before finishing. -/
theorem cursor_advancement (s : GameSession)
    (hs : 0 ≤ s.current_question_index) (q : Quiz) (pin : String)
    (ops : List Trigger) (hq : q.question_count = 1) :
    ((s.advance_to_next_question).1 = true ↔
      (0 ≤ s.current_question_index + 1 ∧
       s.current_question_index + 1 < (s.quiz.question_count : Int))) ∧
    (s.advance_to_next_question =
      if s.current_question_index + 1 < (s.quiz.question_count : Int) then
        (true, { s with current_question_index :=
                   s.current_question_index + 1 })
      else (false, s)) ∧
    (GameState.leaderboard.get_next_state s =
      if s.current_question_index + 1 < (s.quiz.question_count : Int) then
        (some GameState.question,
         { s with current_question_index := s.current_question_index + 1 })
      else (some GameState.finished, s)) ∧
    (((GameSession.mkSession pin q none).runTriggers
        ops).1.current_question_index = 0) ∧
    (((GameSession.mkSession "P" sampleQuiz3 none).runTriggers
        [Trigger.startQuestion]).1.current_question_index = 0) ∧
    (((GameSession.mkSession "P" sampleQuiz3 none).runTriggers
        [Trigger.startQuestion, Trigger.next,
         Trigger.next]).1.current_question_index = 1) ∧
    (((GameSession.mkSession "P" sampleQuiz3 none).runTriggers
        [Trigger.startQuestion, Trigger.next, Trigger.next, Trigger.next,
         Trigger.next]).1.current_question_index = 2) ∧
    (((GameSession.mkSession "P" sampleQuiz3 none).runTriggers
        [Trigger.startQuestion, Trigger.next, Trigger.next, Trigger.next,
         Trigger.next, Trigger.next, Trigger.next]).1.state =
      some GameState.finished) ∧
    (((GameSession.mkSession "P" sampleQuiz3 none).runTriggers
        [Trigger.startQuestion, Trigger.next, Trigger.next, Trigger.next,
         Trigger.next, Trigger.next, Trigger.next]).1.current_question_index
      = 2) := by
  have hret : (s.advance_to_next_question).1 = s.has_next_question := by
    rw [GameSession.advance_to_next_question]
    split <;> simp_all
  refine ⟨?_, ?_, ?_, ?_, by decide, by decide, by decide, by decide,
          by decide⟩
  · rw [hret, GameSession.has_next_question]
    simp only [decide_eq_true_eq]
    omega
  · rw [GameSession.advance_to_next_question, GameSession.has_next_question]
    simp only [decide_eq_true_eq]
  · by_cases hb : s.has_next_question = true
    · have hb2 : s.current_question_index + 1 <
          (s.quiz.question_count : Int) := by
        simpa [GameSession.has_next_question, decide_eq_true_eq] using hb
      simp [GameState.get_next_state, hb,
            GameSession.advance_to_next_question, hb2]
    · have hb2 : ¬ (s.current_question_index + 1 <
          (s.quiz.question_count : Int)) := by
        simpa [GameSession.has_next_question, decide_eq_true_eq] using hb
      simp [GameState.get_next_state, hb, hb2]
  · have hq0 : 0 < q.question_count := by omega
    have hbd := mkSession_run_cursor q pin ops hq0
    omega

/-- Witness for C5 at a fresh one-question session. -/
theorem cursor_advancement_witness :
    (0 ≤ (GameSession.mkSession "W" sampleQuiz1
        none).current_question_index) ∧
    (sampleQuiz1.question_count = 1) ∧
    ((((GameSession.mkSession "W" sampleQuiz1
          none).advance_to_next_question).1 = true ↔
      (0 ≤ (GameSession.mkSession "W" sampleQuiz1
          none).current_question_index + 1 ∧
       (GameSession.mkSession "W" sampleQuiz1
          none).current_question_index + 1 <
        ((GameSession.mkSession "W" sampleQuiz1
          none).quiz.question_count : Int))) ∧
    ((GameSession.mkSession "W" sampleQuiz1 none).advance_to_next_question =
      if (GameSession.mkSession "W" sampleQuiz1
            none).current_question_index + 1 <
          ((GameSession.mkSession "W" sampleQuiz1
            none).quiz.question_count : Int) then
        (true, { GameSession.mkSession "W" sampleQuiz1 none with
                   current_question_index :=
                     (GameSession.mkSession "W" sampleQuiz1
                       none).current_question_index + 1 })
      else (false, GameSession.mkSession "W" sampleQuiz1 none)) ∧
    (GameState.leaderboard.get_next_state
        (GameSession.mkSession "W" sampleQuiz1 none) =
      if (GameSession.mkSession "W" sampleQuiz1
            none).current_question_index + 1 <
          ((GameSession.mkSession "W" sampleQuiz1
            none).quiz.question_count : Int) then
        (some GameState.question,
         { GameSession.mkSession "W" sampleQuiz1 none with
             current_question_index :=
               (GameSession.mkSession "W" sampleQuiz1
                 none).current_question_index + 1 })
      else (some GameState.finished,
            GameSession.mkSession "W" sampleQuiz1 none)) ∧
    (((GameSession.mkSession "W" sampleQuiz1 none).runTriggers
        [Trigger.startQuestion]).1.current_question_index = 0) ∧
    (((GameSession.mkSession "P" sampleQuiz3 none).runTriggers
        [Trigger.startQuestion]).1.current_question_index = 0) ∧
    (((GameSession.mkSession "P" sampleQuiz3 none).runTriggers
        [Trigger.startQuestion, Trigger.next,
         Trigger.next]).1.current_question_index = 1) ∧
    (((GameSession.mkSession "P" sampleQuiz3 none).runTriggers
        [Trigger.startQuestion, Trigger.next, Trigger.next, Trigger.next,
         Trigger.next]).1.current_question_index = 2) ∧
    (((GameSession.mkSession "P" sampleQuiz3 none).runTriggers
        [Trigger.startQuestion, Trigger.next, Trigger.next, Trigger.next,
         Trigger.next, Trigger.next, Trigger.next]).1.state =
      some GameState.finished) ∧
    (((GameSession.mkSession "P" sampleQuiz3 none).runTriggers
        [Trigger.startQuestion, Trigger.next, Trigger.next, Trigger.next,
         Trigger.next, Trigger.next, Trigger.next]).1.current_question_index
      = 2)) :=
  ⟨by decide, by decide,
   cursor_advancement (GameSession.mkSession "W" sampleQuiz1 none)
     (by decide) sampleQuiz1 "W" [Trigger.startQuestion] (by decide)⟩

/-- Counterexample to C6 as stated: a freshly created session is still in
the lobby — before the first transition into the Question state — yet
`get_current_question` already returns the first question rather than an
absent result; likewise after reaching Finished it still returns the last
question. -/
theorem get_current_question_never_absent_counterexample :
    (GameSession.mkSession "P" sampleQuiz1 none).state =
      some GameState.lobby ∧
    (GameSession.mkSession "P" sampleQuiz1 none).get_current_question =
      some (sampleChoice "q1") ∧
    (((GameSession.mkSession "P" sampleQuiz1 none).runTriggers
        [Trigger.startQuestion, Trigger.next, Trigger.next]).1.state =
      some GameState.finished) ∧
    (((GameSession.mkSession "P" sampleQuiz1 none).runTriggers
        [Trigger.startQuestion, Trigger.next,
         Trigger.next]).1.get_current_question =
      some (sampleChoice "q1")) := by
  decide

/-- C6 (amended): `get_current_question` returns the quiz's question at the
current cursor whenever the cursor is a valid index and an absent result
only otherwise; for every session built on a non-empty quiz the cursor
remains a valid index through every trigger sequence, so the result is
never absent — including in Lobby before the first Question transition and
after Finished. -/
theorem get_current_question_follows_cursor (q : Quiz) (pin : String)
    (ops : List Trigger) (h : q.questions ≠ []) :
    ((GameSession.mkSession pin q none).runTriggers
        ops).1.get_current_question =
      q.questions[(((GameSession.mkSession pin q none).runTriggers
        ops).1.current_question_index).toNat]? ∧
    ((GameSession.mkSession pin q none).runTriggers
        ops).1.get_current_question ≠ none := by
  have hq0 : 0 < q.question_count := by
    cases hqe : q.questions with
    | nil => exact absurd hqe h
    | cons a l => simp [Quiz.question_count, hqe]
  have hp0 : Phase q.question_count (GameSession.mkSession pin q none) [] :=
    Phase.lobby _ rfl rfl
  obtain ⟨hqz, hp⟩ := runTriggers_phase q.question_count hq0 ops _ [] rfl hp0
  rw [List.nil_append] at hp
  have hbd := phase_cursor_bound q.question_count hq0 _ _ hp
  have hquiz : ((GameSession.mkSession pin q none).runTriggers ops).1.quiz
      = q := hqz
  have hcond : 0 ≤ ((GameSession.mkSession pin q none).runTriggers
        ops).1.current_question_index ∧
      ((GameSession.mkSession pin q none).runTriggers
        ops).1.current_question_index < (q.questions.length : Int) := by
    have h2 := hbd.2
    simp only [Quiz.question_count] at h2
    exact ⟨hbd.1, h2⟩
  have hlt : (((GameSession.mkSession pin q none).runTriggers
        ops).1.current_question_index).toNat < q.questions.length := by
    omega
  refine ⟨?_, ?_⟩
  · rw [GameSession.get_current_question, hquiz, Quiz.get_question_at,
        if_pos hcond]
  · rw [GameSession.get_current_question, hquiz, Quiz.get_question_at,
        if_pos hcond]
    simp [List.getElem?_eq_getElem hlt]

/-- Witness for C6 (amended) at the one-question sample quiz. -/
theorem get_current_question_follows_cursor_witness :
    sampleQuiz1.questions ≠ [] ∧
    (((GameSession.mkSession "P" sampleQuiz1 none).runTriggers
        [Trigger.startQuestion]).1.get_current_question =
      sampleQuiz1.questions[((((GameSession.mkSession "P" sampleQuiz1
        none).runTriggers
        [Trigger.startQuestion]).1.current_question_index)).toNat]? ∧
    ((GameSession.mkSession "P" sampleQuiz1 none).runTriggers
        [Trigger.startQuestion]).1.get_current_question ≠ none) :=
  ⟨by decide,
   get_current_question_follows_cursor sampleQuiz1 "P"
     [Trigger.startQuestion] (by decide)⟩

/-- Whether construction succeeded (the Python constructor did not raise). -/
def exceptOk {e a : Type} : Except e a → Bool
  | Except.ok _ => true
  | Except.error _ => false

/-- C7: evaluation of the failing input.  `add_score` writes the private
score field directly, without the validation the score setter performs, so
adding -10 to a player whose score is 0 stores the negative score -10
instead of rejecting the adjustment; the setter rejects that same value. -/
theorem add_score_stores_negative_score :
    ((Player.mk "c1" "alice" 0).add_score (-10)).score = -10 ∧
    ((-10 : Int) < 0) ∧
    (Player.mk "c1" "alice" 0).set_score (-10) =
      Except.error "Score cannot be negative." :=
  ⟨rfl, by decide, rfl⟩

/-- Counterexample to C8 as stated: recording an answer for an identity
absent from the (empty) player map still inserts it into the answered-set,
and removing the only player leaves its identity in the answered-set, so
the answered-set is not a subset of the player map's keys. -/
theorem answered_set_not_subset_counterexample :
    ((((GameSession.mkSession "P" sampleQuiz1 none).record_answer
        "ghost").2.players = []) ∧
    ("ghost" ∈ ((GameSession.mkSession "P" sampleQuiz1 none).record_answer
        "ghost").2.current_question_answered)) ∧
    (((((GameSession.mkSession "P" sampleQuiz1 none).add_player
        (Player.mk "c1" "alice" 0)).record_answer
        "c1").2.remove_player "c1").2.players = [] ∧
    "c1" ∈ ((((GameSession.mkSession "P" sampleQuiz1 none).add_player
        (Player.mk "c1" "alice" 0)).record_answer
        "c1").2.remove_player "c1").2.current_question_answered) := by
  decide

/-- C8 (amended): the answered-set is not kept a subset of the player map's
keys: `remove_player` touches only the player map and leaves the
answered-set unchanged, `record_answer` inserts any identity — also one
absent from the player map — and the answered-set is cleared by the
Question state's `on_enter`. -/
theorem answered_set_independent_of_players (s : GameSession)
    (cid cid2 : String) (h : cid2 ∉ s.current_question_answered)
    (h2 : playersLookup s.players cid2 = none) :
    (s.remove_player cid).2.current_question_answered =
      s.current_question_answered ∧
    (s.record_answer cid2).2.current_question_answered =
      cid2 :: s.current_question_answered ∧
    (GameState.question.on_enter s).current_question_answered = [] := by
  exact ⟨rfl, by simp [GameSession.record_answer, h], rfl⟩

/-- Witness for C8 (amended) at a session with one player. -/
theorem answered_set_independent_of_players_witness :
    ("ghost" ∉ ((GameSession.mkSession "P" sampleQuiz1 none).add_player
        (Player.mk "c1" "alice" 0)).current_question_answered) ∧
    (playersLookup ((GameSession.mkSession "P" sampleQuiz1 none).add_player
        (Player.mk "c1" "alice" 0)).players "ghost" = none) ∧
    ((((GameSession.mkSession "P" sampleQuiz1 none).add_player
        (Player.mk "c1" "alice" 0)).remove_player
        "c1").2.current_question_answered =
      ((GameSession.mkSession "P" sampleQuiz1 none).add_player
        (Player.mk "c1" "alice" 0)).current_question_answered ∧
    (((GameSession.mkSession "P" sampleQuiz1 none).add_player
        (Player.mk "c1" "alice" 0)).record_answer
        "ghost").2.current_question_answered =
      "ghost" :: ((GameSession.mkSession "P" sampleQuiz1 none).add_player
        (Player.mk "c1" "alice" 0)).current_question_answered ∧
    (GameState.question.on_enter ((GameSession.mkSession "P" sampleQuiz1
        none).add_player
        (Player.mk "c1" "alice" 0))).current_question_answered = []) :=
  ⟨by decide, by decide,
   answered_set_independent_of_players
     ((GameSession.mkSession "P" sampleQuiz1 none).add_player
       (Player.mk "c1" "alice" 0)) "c1" "ghost" (by decide) (by decide)⟩

/-- C10: `record_answer` consults only the answered-set: for a session in
any lifecycle state — Lobby, Question, Leaderboard or Finished — and any
connection identity, even one never added to the player map, the first
call since the answered-set was last cleared returns true and marks the
identity answered, changing neither the state nor the player map. -/
theorem record_answer_no_precondition (s : GameSession) (cid : String)
    (h : cid ∉ s.current_question_answered) :
    (s.record_answer cid).1 = true ∧
    cid ∈ (s.record_answer cid).2.current_question_answered ∧
    (s.record_answer cid).2.state = s.state ∧
    (s.record_answer cid).2.players = s.players := by
  refine ⟨?_, ?_, ?_, ?_⟩ <;> simp [GameSession.record_answer, h]

/-- Witness for C10: a finished-state session whose player map is empty
still accepts a first answer from an unknown identity. -/
theorem record_answer_no_precondition_witness :
    ("bob" ∉ sampleSessionFinished.current_question_answered) ∧
    ((sampleSessionFinished.record_answer "bob").1 = true ∧
    "bob" ∈ (sampleSessionFinished.record_answer
        "bob").2.current_question_answered ∧
    (sampleSessionFinished.record_answer "bob").2.state =
      sampleSessionFinished.state ∧
    (sampleSessionFinished.record_answer "bob").2.players =
      sampleSessionFinished.players) :=
  ⟨by decide, record_answer_no_precondition sampleSessionFinished "bob"
    (by decide)⟩

/-- C9: constructing a ChoiceQuestion succeeds exactly when the options
list is non-empty and the correct index lies in [0, len(options)); a
successful construction stores the given options and index unchanged;
correct_index = len(options) always fails; a non-empty options list with
correct_index = 0 succeeds. -/
theorem choice_question_construction (t1 t2 : String) (o1 o2 : List String)
    (c1 c2 tl1 tl2 : Int) (h2a : o2 ≠ []) (h2b : 0 ≤ c2)
    (h2c : c2 < (o2.length : Int)) :
    (exceptOk (mkChoiceQuestion t1 o1 c1 tl1) = true ↔
      (o1 ≠ [] ∧ 0 ≤ c1 ∧ c1 < (o1.length : Int))) ∧
    (mkChoiceQuestion t2 o2 c2 tl2 =
      Except.ok { text := t2, time_limit_seconds := tl2, options := o2,
                  correct_index := c2 }) ∧
    (exceptOk (mkChoiceQuestion t1 o1 (o1.length : Int) tl1) = false) ∧
    (exceptOk (mkChoiceQuestion t2 o2 0 tl2) = true) := by
  have hcond2 : ¬ (c2 < 0 ∨ (o2.length : Int) ≤ c2) := by omega
  have hlen2 : 0 < o2.length := List.length_pos.mpr h2a
  have hcond0 : ¬ ((0 : Int) < 0 ∨ (o2.length : Int) ≤ 0) := by omega
  refine ⟨?_, ?_, ?_, ?_⟩
  · rw [mkChoiceQuestion]
    split_ifs with he hr
    · simp [exceptOk, he]
    · simp only [exceptOk, Bool.false_eq_true, false_iff]
      intro hcl
      exact absurd hr (by omega)
    · simp only [exceptOk, true_iff]
      refine ⟨he, by omega, by omega⟩
  · rw [mkChoiceQuestion, if_neg h2a, if_neg hcond2]
  · rw [mkChoiceQuestion]
    split_ifs with he hr
    · rfl
    · rfl
    · exact absurd (Or.inr le_rfl) hr
  · rw [mkChoiceQuestion, if_neg h2a, if_neg hcond0]
    rfl

/-- Witness for C9 at concrete option lists. -/
theorem choice_question_construction_witness :
    ((["a", "b"] : List String) ≠ []) ∧ ((0 : Int) ≤ 1) ∧
    ((1 : Int) < ((["a", "b"] : List String).length : Int)) ∧
    ((exceptOk (mkChoiceQuestion "t" ["x"] 5 30) = true ↔
      ((["x"] : List String) ≠ [] ∧ (0 : Int) ≤ 5 ∧
        (5 : Int) < ((["x"] : List String).length : Int))) ∧
    (mkChoiceQuestion "u" ["a", "b"] 1 30 =
      Except.ok { text := "u", time_limit_seconds := 30,
                  options := ["a", "b"], correct_index := 1 }) ∧
    (exceptOk (mkChoiceQuestion "t" ["x"]
        ((["x"] : List String).length : Int) 30) = false) ∧
    (exceptOk (mkChoiceQuestion "u" ["a", "b"] 0 30) = true)) :=
  ⟨by decide, by decide, by decide,
   choice_question_construction "t" "u" ["x"] ["a", "b"] 5 1 30 30
     (by decide) (by decide) (by decide)⟩
